import Mathlib

/-!
Verification development for the recruitee-data MCP server.

The embedding models, from the Python sources:
  * `src/tools/utils.py`      : `iso_to_unix`
  * `src/tools/candidates.py` : `CandidateSearchFilter`, the filter-clause
    construction of `search_candidates`, `_limit_max`, `_get_candidates_details`
  * `src/tools/offers.py`     : `_get_offers_details`
  * `src/tools/lookup.py`     : the `alru_cache(ttl=900)` reference caching
  * `src/utils/auth.py`       : `InputValidator`, `BearerAuthMiddleware.dispatch`,
    `LoginPasswordMiddleware.dispatch`

JSON values are modelled by `JVal`; Python dicts are ordered association lists
(matching CPython insertion order, which `json.dumps` preserves).
-/

/-- A JSON value as produced by the tool layer.  Python dicts are modelled as
ordered association lists. -/
inductive JVal where
  | num (n : Int)
  | str (s : String)
  | bool (b : Bool)
  | arr (xs : List JVal)
  | obj (fields : List (String × JVal))

/-- Python `dict.get(key, default)` on a `JVal.obj` (first matching key). -/
def jGet (v : JVal) (key : String) (dflt : JVal) : JVal :=
  match v with
  | JVal.obj fields =>
    match fields.find? (fun kv => kv.1 == key) with
    | some kv => kv.2
    | none => dflt
  | _ => dflt

/-- Python `d[key]` lookup returning `none` when the key is absent
(also used to model `key in d`). -/
def objGet (v : JVal) (key : String) : Option JVal :=
  match v with
  | JVal.obj fields =>
    match fields.find? (fun kv => kv.1 == key) with
    | some kv => some kv.2
    | none => none
  | _ => none

/-- Python `str.split(" ")` on a character list: splitting on a single
separator character, keeping empty fields (CPython semantics for an explicit
separator). -/
def splitOnChar (sep : Char) : List Char → List (List Char)
  | [] => [[]]
  | c :: rest =>
    if c = sep then [] :: splitOnChar sep rest
    else
      match splitOnChar sep rest with
      | t :: ts => (c :: t) :: ts
      | [] => [[c]]

/-- Characters stripped by Python `str.strip()`: the CPython whitespace set
(Unicode categories Zs, Zl, Zp and bidirectional classes WS, B, S) —
U+0009-U+000D, U+001C-U+0020, NEL, NBSP, OGHAM SPACE MARK, U+2000-U+200A,
LINE and PARAGRAPH SEPARATOR, NARROW NO-BREAK SPACE, MEDIUM MATHEMATICAL
SPACE and IDEOGRAPHIC SPACE. -/
def isPySpace (c : Char) : Bool :=
  (0x09 ≤ c.toNat && c.toNat ≤ 0x0D) || (0x1C ≤ c.toNat && c.toNat ≤ 0x20) ||
  c.toNat = 0x85 || c.toNat = 0xA0 || c.toNat = 0x1680 ||
  (0x2000 ≤ c.toNat && c.toNat ≤ 0x200A) || c.toNat = 0x2028 ||
  c.toNat = 0x2029 || c.toNat = 0x202F || c.toNat = 0x205F || c.toNat = 0x3000

/-- Python `str.strip()`. -/
def pyStrip (cs : List Char) : List Char :=
  ((cs.dropWhile isPySpace).reverse.dropWhile isPySpace).reverse

/-- One character under Python `html.escape(s, quote=True)`.  CPython performs
sequential `str.replace` calls starting with the ampersand, which is equivalent
to this single character map. -/
def escapeChar (c : Char) : List Char :=
  if c = '&' then "&amp;".data
  else if c = '<' then "&lt;".data
  else if c = '>' then "&gt;".data
  else if c = '"' then "&quot;".data
  else if c = '\'' then "&#x27;".data
  else [c]

/-- Python `html.escape(s, quote=True)`. -/
def escapeHtml : List Char → List Char
  | [] => []
  | c :: rest => escapeChar c ++ escapeHtml rest

/-- Python `iso_string.replace("Z", "+00:00")` (the pattern is the single
character `Z`, so every occurrence is expanded). -/
def replaceZ : List Char → List Char
  | [] => []
  | c :: rest =>
    if c = 'Z' then '+' :: '0' :: '0' :: ':' :: '0' :: '0' :: replaceZ rest
    else c :: replaceZ rest

/-- Decimal value of an ASCII digit. -/
def digitVal (c : Char) : Option Nat :=
  if '0' ≤ c ∧ c ≤ '9' then some (c.toNat - 48) else none

/-- Two-digit decimal number. -/
def twoDigits (a b : Char) : Option Nat := do
  let x ← digitVal a
  let y ← digitVal b
  pure (10 * x + y)

/-- Four-digit decimal number. -/
def fourDigits (a b c d : Char) : Option Nat := do
  let x ← twoDigits a b
  let y ← twoDigits c d
  pure (100 * x + y)

/-- Proleptic Gregorian leap-year rule (as in Python `datetime`). -/
def isLeapYear (y : Nat) : Bool :=
  (y % 4 == 0 && y % 100 != 0) || y % 400 == 0

/-- Number of days of month `mo` of year `y`. -/
def daysInMonth (y mo : Nat) : Nat :=
  if mo = 2 then (if isLeapYear y then 29 else 28)
  else if mo = 4 ∨ mo = 6 ∨ mo = 9 ∨ mo = 11 then 30
  else 31

/-- Days from 0001-01-01 to the first day of year `y` (`y ≥ 1`). -/
def daysBeforeYear (y : Nat) : Nat :=
  365 * (y - 1) + (y - 1) / 4 + (y - 1) / 400 - (y - 1) / 100

/-- Days from the first day of year `y` to the first day of its month `mo`. -/
def daysBeforeMonth (y mo : Nat) : Nat :=
  [0, 31, 59, 90, 120, 151, 181, 212, 243, 273, 304, 334].getD (mo - 1) 0 +
    (if 2 < mo ∧ isLeapYear y then 1 else 0)

/-- A parsed ISO-8601 datetime with a UTC offset in minutes. -/
structure IsoDT where
  year : Nat
  month : Nat
  day : Nat
  hour : Nat
  minute : Nat
  second : Nat
  offsetMinutes : Int

/-- Range validation done by `datetime` on construction. -/
def mkIsoDT (y mo d hh mi ss : Nat) (off : Int) : Option IsoDT :=
  if 1 ≤ y ∧ y ≤ 9999 ∧ 1 ≤ mo ∧ mo ≤ 12 ∧ 1 ≤ d ∧ d ≤ daysInMonth y mo ∧
      hh ≤ 23 ∧ mi ≤ 59 ∧ ss ≤ 59 then
    some ⟨y, mo, d, hh, mi, ss, off⟩
  else none

/-- Modelled from the spec: the parser behind `iso_to_unix` is the stdlib
`datetime.fromisoformat` (not part of src/); the model implements the grammar
stated in the spec, `YYYY-MM-DDTHH:MM:SS[Z|±HH:MM]` (after the `Z`
replacement the offset form is `±HH:MM`).  A datetime without an offset is
naive; the code interprets it in the process's local timezone, the model fixes
offset zero (no theorem below evaluates a naive input). -/
def parseIsoChars (cs : List Char) : Option IsoDT :=
  match cs with
  | [y1, y2, y3, y4, '-', a1, a2, '-', d1, d2, 'T',
     h1, h2, ':', m1, m2, ':', s1, s2] => do
    let y ← fourDigits y1 y2 y3 y4
    let mo ← twoDigits a1 a2
    let d ← twoDigits d1 d2
    let hh ← twoDigits h1 h2
    let mi ← twoDigits m1 m2
    let ss ← twoDigits s1 s2
    mkIsoDT y mo d hh mi ss 0
  | [y1, y2, y3, y4, '-', a1, a2, '-', d1, d2, 'T',
     h1, h2, ':', m1, m2, ':', s1, s2, sg, o1, o2, ':', o3, o4] => do
    let y ← fourDigits y1 y2 y3 y4
    let mo ← twoDigits a1 a2
    let d ← twoDigits d1 d2
    let hh ← twoDigits h1 h2
    let mi ← twoDigits m1 m2
    let ss ← twoDigits s1 s2
    let oh ← twoDigits o1 o2
    let om ← twoDigits o3 o4
    if oh ≤ 23 ∧ om ≤ 59 then
      if sg = '+' then mkIsoDT y mo d hh mi ss (oh * 60 + om)
      else if sg = '-' then mkIsoDT y mo d hh mi ss (-(oh * 60 + om : Int))
      else none
    else none
  | _ => none

/-- Days from 0001-01-01 to 1970-01-01. -/
def epochOrdinalDays : Nat := 719162

/-- `int(dt.timestamp())` of an offset-aware datetime: seconds since the Unix
epoch (exact for whole-second datetimes). -/
def isoEpochSeconds (d : IsoDT) : Int :=
  let days : Int :=
    (daysBeforeYear d.year + daysBeforeMonth d.year d.month + (d.day - 1) : Nat) -
      (epochOrdinalDays : Int)
  days * 86400 + d.hour * 3600 + d.minute * 60 + d.second - d.offsetMinutes * 60

/-- `iso_to_unix` from src/tools/utils.py: replace `Z` by `+00:00`, parse, and
convert to Unix seconds; on any parse failure raise
`ValueError("Invalid ISO date string: <input>")`. -/
def iso_to_unix (iso_string : String) : Except String Int :=
  match parseIsoChars (replaceZ iso_string.data) with
  | some dt => Except.ok (isoEpochSeconds dt)
  | none => Except.error ("Invalid ISO date string: " ++ iso_string)

/-- `iso_to_unix` as called on an `Optional[str]` field: Python
`iso_to_unix(None)` raises `ValueError("Invalid ISO date string: None")`
(the `AttributeError` from `None.replace` is caught and re-raised). -/
def iso_to_unix_opt (v : Option String) : Except String Int :=
  match v with
  | some s => iso_to_unix s
  | none => Except.error "Invalid ISO date string: None"

example : iso_to_unix "2025-05-20T12:30:00Z" = Except.ok 1747744200 := rfl
example : iso_to_unix "2025-05-20T12:30:00+00:00" = Except.ok 1747744200 := rfl
example : iso_to_unix "2025-05-20T14:30:00+02:00" = Except.ok 1747744200 := rfl
example : iso_to_unix "not-a-date" =
    Except.error "Invalid ISO date string: not-a-date" := rfl
example : iso_to_unix "2025-13-01T00:00:00Z" =
    Except.error "Invalid ISO date string: 2025-13-01T00:00:00Z" := rfl

/-- `CandidateSearchFilter` from src/tools/candidates.py.  Optional fields
default to `none`; the two combiners carry the pydantic default `"in"`, and
the admissible combiner literals are not re-validated here (no claim depends
on them).  `limit`/`offset` default to 100/0. -/
structure CandidateSearchFilter where
  offer_ids : Option (List Int)
  disqualify_reasons : Option (List String)
  is_disqualified : Option Bool
  candidate_tag_ids : Option (List Int)
  skills : Option (List String)
  skills_combiner : Option String
  talent_pools : Option (List Int)
  talent_pools_combiner : Option String
  has_stage : Option Bool
  on_stage : Option (List String)
  gdpr_expires_from : Option String
  gdpr_expires_to : Option String
  created_from : Option String
  created_to : Option String
  custom_fields : Option String
  custom_fields_combiner : Option String
  limit : Int
  offset : Int

/-- The spec value with every optional field absent (combiners keep their
pydantic default `"in"`, `limit`/`offset` their defaults 100/0). -/
def emptySearchFilter : CandidateSearchFilter :=
  ⟨none, none, none, none, none, some "in", none, some "in", none, none,
   none, none, none, none, none, none, 100, 0⟩

/-- Python truthiness of an `Optional[List[...]]` field. -/
def optListTruthy {α : Type} (v : Option (List α)) : Bool :=
  match v with
  | some xs => !xs.isEmpty
  | none => false

/-- Python truthiness of an `Optional[str]` field. -/
def optStrTruthy (v : Option String) : Bool :=
  match v with
  | some s => !(s == "")
  | none => false

/-- Step 1 of `search_candidates`: `{"filter": "jobs", "id": {"in": ids}}`. -/
def jobsStep (f : CandidateSearchFilter) : Option JVal :=
  match f.offer_ids with
  | some ids =>
    if ids.isEmpty then none
    else some (JVal.obj [("filter", JVal.str "jobs"),
      ("id", JVal.obj [("in", JVal.arr (ids.map JVal.num))])])
  | none => none

/-- Step 2: `{"filter": "disqualifies", "reason": {"in": names}}`. -/
def dqReasonsStep (f : CandidateSearchFilter) : Option JVal :=
  match f.disqualify_reasons with
  | some names =>
    if names.isEmpty then none
    else some (JVal.obj [("filter", JVal.str "disqualifies"),
      ("reason", JVal.obj [("in", JVal.arr (names.map JVal.str))])])
  | none => none

/-- Step 3: `is_disqualified` boolean clause (`is not None` check). -/
def dqBoolStep (f : CandidateSearchFilter) : Option JVal :=
  match f.is_disqualified with
  | some b =>
    if b then some (JVal.obj [("filter", JVal.str "disqualifies"),
      ("reason", JVal.obj [("has_any", JVal.bool true)])])
    else some (JVal.obj [("filter", JVal.str "disqualifies"),
      ("reason", JVal.obj [("has_none", JVal.bool true)])])
  | none => none

/-- Step 4: `{"filter": "tags", "id": {"in": ids}}`. -/
def tagsStep (f : CandidateSearchFilter) : Option JVal :=
  match f.candidate_tag_ids with
  | some ids =>
    if ids.isEmpty then none
    else some (JVal.obj [("filter", JVal.str "tags"),
      ("id", JVal.obj [("in", JVal.arr (ids.map JVal.num))])])
  | none => none

/-- Step 5: skills with combiner; both must be truthy. -/
def skillsStep (f : CandidateSearchFilter) : Option JVal :=
  if optListTruthy f.skills ∧ optStrTruthy f.skills_combiner then
    some (JVal.obj [("filter", JVal.str "skills"),
      ("text", JVal.obj [((f.skills_combiner.getD ""),
        JVal.arr ((f.skills.getD []).map JVal.str))])])
  else none

/-- Step 6: talent pools with combiner; both must be truthy. -/
def poolsStep (f : CandidateSearchFilter) : Option JVal :=
  if optListTruthy f.talent_pools ∧ optStrTruthy f.talent_pools_combiner then
    some (JVal.obj [("filter", JVal.str "talent_pools"),
      ("id", JVal.obj [((f.talent_pools_combiner.getD ""),
        JVal.arr ((f.talent_pools.getD []).map JVal.num))])])
  else none

/-- Step 7: `has_stage` clause (`is not None` check). -/
def hasStageStep (f : CandidateSearchFilter) : Option JVal :=
  match f.has_stage with
  | some b =>
    if b then some (JVal.obj [("filter", JVal.str "stages"), ("has_any", JVal.bool true)])
    else some (JVal.obj [("filter", JVal.str "stages"), ("has_none", JVal.bool true)])
  | none => none

/-- Step 8: `on_stage` clause (`is not None` check, so an empty list also
emits a clause). -/
def onStageStep (f : CandidateSearchFilter) : Option JVal :=
  match f.on_stage with
  | some names =>
    some (JVal.obj [("filter", JVal.str "stages"),
      ("name", JVal.obj [("in", JVal.arr (names.map JVal.str))])])
  | none => none

/-- Step 9 as written in src/tools/candidates.py lines 81-87: the outer guard
tests the gdpr window, but the two bound guards test `created_from` /
`created_to` while converting the gdpr fields. -/
def gdprStep (f : CandidateSearchFilter) : Except String (Option JVal) := do
  if optStrTruthy f.gdpr_expires_from || optStrTruthy f.gdpr_expires_to then
    let gteEntries : List (String × JVal) ←
      if optStrTruthy f.created_from then do
        let v ← iso_to_unix_opt f.gdpr_expires_from
        pure [("gte", JVal.num v)]
      else pure []
    let lteEntries : List (String × JVal) ←
      if optStrTruthy f.created_to then do
        let v ← iso_to_unix_opt f.gdpr_expires_to
        pure [("lte", JVal.num v)]
      else pure []
    pure (some (JVal.obj (("field", JVal.str "gdpr_expires_at") ::
      (gteEntries ++ lteEntries))))
  else pure none

/-- Step 10: the creation window, `{"field": "created_at", ...}`. -/
def createdStep (f : CandidateSearchFilter) : Except String (Option JVal) := do
  if optStrTruthy f.created_from || optStrTruthy f.created_to then
    let gteEntries : List (String × JVal) ←
      if optStrTruthy f.created_from then do
        let v ← iso_to_unix_opt f.created_from
        pure [("gte", JVal.num v)]
      else pure []
    let lteEntries : List (String × JVal) ←
      if optStrTruthy f.created_to then do
        let v ← iso_to_unix_opt f.created_to
        pure [("lte", JVal.num v)]
      else pure []
    pure (some (JVal.obj (("field", JVal.str "created_at") ::
      (gteEntries ++ lteEntries))))
  else pure none

/-- Step 11: custom-field presence clause
`{"filter": <search_key>, <combiner>: True}`. -/
def customStep (f : CandidateSearchFilter) : Option JVal :=
  if optStrTruthy f.custom_fields ∧ optStrTruthy f.custom_fields_combiner then
    some (JVal.obj [("filter", JVal.str (f.custom_fields.getD "")),
      ((f.custom_fields_combiner.getD ""), JVal.bool true)])
  else none

/-- The clause construction of `search_candidates` (src/tools/candidates.py
lines 51-98): each conditional `filters.append(...)` contributes the
`toList` of its step, in program order; steps 9 and 10 are the only ones
that can raise (through `iso_to_unix`), and they raise in that order. -/
def searchFilters (f : CandidateSearchFilter) : Except String (List JVal) := do
  let g ← gdprStep f
  let c ← createdStep f
  pure ((jobsStep f).toList ++ (dqReasonsStep f).toList ++ (dqBoolStep f).toList ++
    (tagsStep f).toList ++ (skillsStep f).toList ++ (poolsStep f).toList ++
    (hasStageStep f).toList ++ (onStageStep f).toList ++
    g.toList ++ c.toList ++ (customStep f).toList)

/-- Restatement of the compiler in the shape of the spec's section 4.2: eleven
steps, each emitting at most one clause, in a fixed order. -/
def compileSteps (f : CandidateSearchFilter) : Except String (List (Option JVal)) := do
  let g ← gdprStep f
  let c ← createdStep f
  pure [jobsStep f, dqReasonsStep f, dqBoolStep f, tagsStep f, skillsStep f,
    poolsStep f, hasStageStep f, onStageStep f, g, c, customStep f]

/-- The head filter-family name of a clause: the value of its leading
`"filter"` or `"field"` key. -/
def clauseFamily (c : JVal) : String :=
  match c with
  | JVal.obj (("filter", JVal.str n) :: _) => n
  | JVal.obj (("field", JVal.str n) :: _) => n
  | _ => ""

/-- Number of clauses of a given filter family in a compiled list. -/
def countFamily (name : String) (cs : List JVal) : Nat :=
  (cs.filter (fun c => clauseFamily c == name)).length

/-- `CandidateSearchFilter._limit_max` from src/tools/candidates.py lines
40-44: the pydantic validator for `limit`. -/
def limit_max_validator (v : Int) : Except String Int :=
  if v > 10000 then Except.error "Recruitee caps limit at 10 000 per call."
  else Except.ok v

/-- `_get_candidates_details` from src/tools/candidates.py lines 132-146.
`fetch cid` is the parsed JSON body of `GET /candidates/<cid>`; an empty
`fields` list returns the raw candidate object, a non-empty list keeps only
the requested keys that are present
(`{field: candidate_data.get(field) for field in fields if field in candidate_data}`). -/
def get_candidates_details (fetch : Int → JVal) (candidate_ids : List Int)
    (fields : List String) : List JVal :=
  if candidate_ids.isEmpty then []
  else candidate_ids.map (fun cid =>
    let candidate_data := jGet (fetch cid) "candidate" (JVal.obj [])
    if fields.isEmpty then candidate_data
    else JVal.obj (fields.filterMap (fun fld =>
      (objGet candidate_data fld).map (fun v => (fld, v)))))

/-- `_get_offers_details` from src/tools/offers.py lines 18-33.  The result
dict keyed by offer id is modelled as an association list in insertion order
(the Python function returns the empty list, not an empty dict, for an empty
id list).  A non-empty `fields` list keeps every requested key, substituting
the string `"Field doesn't exist"` for keys absent from the raw offer
(`{field: offer_data.get(field, "Field doesn't exist") for field in fields}`). -/
def get_offers_details (fetch : Int → JVal) (offer_ids : List Int)
    (fields : List String) : List (Int × JVal) :=
  if offer_ids.isEmpty then []
  else offer_ids.map (fun oid =>
    let offer_data := jGet (fetch oid) "offer" (JVal.obj [])
    if fields.isEmpty then (oid, offer_data)
    else (oid, JVal.obj (fields.map (fun fld =>
      (fld, (objGet offer_data fld).getD (JVal.str "Field doesn\x27t exist"))))))

/-- TTL of the reference caches: `@alru_cache(ttl=900)` on `_fetch_offers`,
`_fetch_talent_pools`, `_fetch_disqualify_reasons`, `_fetch_tags` in
src/tools/lookup.py and src/tools/offers.py. -/
def referenceCacheTTL : Nat := 900

/-- One cache slot: the cached value and the instant it was stored. -/
structure CacheSlot (α : Type) where
  value : α
  storedAt : Nat

/-- Modelled from the spec: the clock-indexed state of one `alru_cache`
kind (the async_lru library is not part of src/).  `upstreamCalls` counts
the RemoteClient-backed fetches performed so far. -/
structure CacheState (α : Type) where
  slot : Option (CacheSlot α)
  upstreamCalls : Nat

/-- The state of a cache slot before its first use. -/
def emptyCache {α : Type} : CacheState α := ⟨none, 0⟩

/-- Modelled from the spec: one call of a `ttl=900` cached fetch function at
time `now`.  A stored value is served while its age is at most the TTL
("the cached value's age exceeds 900 seconds" forces a refetch); otherwise
the upstream fetch runs and the result is stored with a fresh timestamp. -/
def cachedFetch {α : Type} (upstream : Nat → α) (now : Nat)
    (st : CacheState α) : α × CacheState α :=
  match st.slot with
  | some c =>
    if now - c.storedAt ≤ referenceCacheTTL then (c.value, st)
    else
      let v := upstream now
      (v, ⟨some ⟨v, now⟩, st.upstreamCalls + 1⟩)
  | none =>
    let v := upstream now
    (v, ⟨some ⟨v, now⟩, st.upstreamCalls + 1⟩)

/-- `InputValidator.sanitize_string` from src/utils/auth.py lines 22-34:
falsy input gives `""`; otherwise strip, HTML-escape, and return `""` when
the escaped form exceeds `max_length`. -/
def sanitize_string (value : Option String) (maxLength : Nat) : String :=
  match value with
  | none => ""
  | some s =>
    if s = "" then ""
    else
      let sanitized := escapeHtml (pyStrip s.data)
      if sanitized.length > maxLength then "" else String.mk sanitized

/-- A character admitted by the username pattern `^[a-zA-Z0-9._@-]+$`. -/
def usernameCharOk (c : Char) : Bool :=
  ('a' ≤ c && c ≤ 'z') || ('A' ≤ c && c ≤ 'Z') || ('0' ≤ c && c ≤ '9') ||
    c = '.' || c = '_' || c = '@' || c = '-'

/-- `InputValidator.validate_username` from src/utils/auth.py lines 36-49. -/
def validate_username (username : String) : Bool × String :=
  if username = "" then (false, "Username is required")
  else if username.length < 3 then (false, "Username too short")
  else if username.length > 50 then (false, "Username too long")
  else if !(username.data.all usernameCharOk) then (false, "Invalid username format")
  else (true, "")

/-- `InputValidator.validate_password` from src/utils/auth.py lines 51-61. -/
def validate_password (password : String) : Bool × String :=
  if password = "" then (false, "Password is required")
  else if password.length < 1 then (false, "Password too short")
  else if password.length > 128 then (false, "Password too long")
  else (true, "")

/-- Outcome of `BearerAuthMiddleware.dispatch`: a 500 JSON response, a 401
JSON response, or the request forwarded unchanged to the inner handler. -/
inductive BearerResult where
  | serverError (detail : String)
  | unauthorized (detail : String)
  | forwarded
deriving DecidableEq

/-- `BearerAuthMiddleware.dispatch` from src/utils/auth.py lines 69-88.
`expectedToken` is `os.getenv("MCP_BEARER_TOKEN")` (`none` when unset; the
empty string is falsy as well); `authHeader` is the request's
`authorization` header. -/
def bearerDispatch (protectedPaths : List String) (expectedToken : Option String)
    (path : String) (authHeader : Option String) : BearerResult :=
  if !(protectedPaths.any fun p => List.isPrefixOf p.data path.data) then
    BearerResult.forwarded
  else
    let expected := expectedToken.getD ""
    if expected = "" then
      BearerResult.serverError "Server misconfiguration - MCP_BEARER_TOKEN not set"
    else
      match authHeader with
      | none => BearerResult.unauthorized "Missing authorization header"
      | some header =>
        if !(List.isPrefixOf "Bearer ".data header.data) then
          BearerResult.unauthorized "Missing authorization header"
        else
          let parts := splitOnChar ' ' header.data
          let token := (parts.get? 1).getD []
          if token = expected.data then BearerResult.forwarded
          else BearerResult.unauthorized "Unauthorized"

/-- The token the bearer gate actually inspects:
`header.split(" ")[1] if len(header.split(" ")) > 1 else ""`. -/
def presentedToken (header : String) : List Char :=
  ((splitOnChar ' ' header.data).get? 1).getD []

/-- Modelled from the spec: the per-address login rate limiter
(slowapi/limits, not part of src/) — at most 3 submissions per 60-second
window, the window opening at the first counted submission. -/
structure RateState where
  windowStart : Nat
  count : Nat

/-- `limiter._limiter.test(rate_limit, client_ip)`: would one more hit stay
within 3 per minute? -/
def rateTest (now : Nat) (st : Option RateState) : Bool :=
  match st with
  | none => true
  | some r => if r.windowStart + 60 ≤ now then true else r.count < 3

/-- `limiter._limiter.hit(rate_limit, client_ip)`: count one submission,
opening a fresh 60-second window when the previous one has elapsed. -/
def rateHit (now : Nat) (st : Option RateState) : Option RateState :=
  match st with
  | none => some ⟨now, 1⟩
  | some r => if r.windowStart + 60 ≤ now then some ⟨now, 1⟩
              else some ⟨r.windowStart, r.count + 1⟩

/-- The DOCUMENTS_TOKEN / DOCUMENTS_USERNAME / DOCUMENTS_PASSWORD
environment values read by `LoginPasswordMiddleware.dispatch`. -/
structure LoginConfig where
  documentsToken : Option String
  documentsUsername : Option String
  documentsPassword : Option String

/-- The parts of an HTTP request inspected by the login gate. -/
structure LoginRequest where
  path : String
  method : String
  scheme : String
  url : String
  cookieAuthToken : Option String
  formUsername : Option String
  formPassword : Option String

/-- Outcome of `LoginPasswordMiddleware.dispatch`: a 500 JSON response, the
request forwarded to the inner handler, a 302 redirect that sets the
`auth_token` cookie, or the rendered login form (with an optional inline
error). -/
inductive LoginResult where
  | serverError (detail : String)
  | passthrough
  | redirect (url : String) (cookieValue : String) (maxAge : Nat)
      (httponly : Bool) (secure : Bool) (samesite : String) (cookiePath : String)
  | loginForm (error : Option String)
deriving DecidableEq

/-- `LoginPasswordMiddleware.dispatch` from src/utils/auth.py lines 96-160,
with the rate limiter passed as explicit clock-indexed state (the
`try/except` around it is modelled as the limiter being available). -/
def loginDispatch (cfg : LoginConfig) (protectedPaths : List String)
    (req : LoginRequest) (now : Nat) (rl : Option RateState) :
    LoginResult × Option RateState :=
  if !(protectedPaths.any fun p => List.isPrefixOf p.data req.path.data) then
    (LoginResult.passthrough, rl)
  else
    let secret := cfg.documentsToken.getD ""
    let dUser := cfg.documentsUsername.getD ""
    let dPass := cfg.documentsPassword.getD ""
    if secret = "" then
      (LoginResult.serverError "Server misconfiguration - DOCUMENTS_TOKEN not set", rl)
    else if dUser = "" ∨ dPass = "" then
      (LoginResult.serverError
        "Server misconfiguration - DOCUMENTS_USERNAME or DOCUMENTS_PASSWORD not set", rl)
    else if (match req.cookieAuthToken with
             | some t => t == secret
             | none => false) then
      (LoginResult.passthrough, rl)
    else if req.method = "POST" then
      if !(rateTest now rl) then
        (LoginResult.loginForm (some "Too many login attempts. Please try again later."), rl)
      else
        let rlNext := rateHit now rl
        let isSecure := req.scheme == "https"
        let username := sanitize_string req.formUsername 50
        let password := sanitize_string req.formPassword 128
        match validate_username username with
        | (false, uerr) =>
          (LoginResult.loginForm (some ("Invalid input: " ++ uerr)), rlNext)
        | (true, _) =>
          match validate_password password with
          | (false, perr) =>
            (LoginResult.loginForm (some ("Invalid input: " ++ perr)), rlNext)
          | (true, _) =>
            if username = dUser ∧ req.formPassword = some dPass then
              (LoginResult.redirect req.url secret 604800 true isSecure
                "strict" "/documents", rlNext)
            else
              (LoginResult.loginForm (some "Invalid username or password"), rlNext)
    else (LoginResult.loginForm none, rl)

/-- `splitOnChar` never returns the empty list. -/
theorem splitOnChar_ne_nil (sep : Char) (cs : List Char) : splitOnChar sep cs ≠ [] := by
  induction cs with
  | nil => simp [splitOnChar]
  | cons c rest ih =>
    simp only [splitOnChar]
    split
    · simp
    · split
      · simp
      · simp

/-- Splitting a list free of the separator yields the single original field. -/
theorem splitOnChar_not_mem (sep : Char) (cs : List Char) (h : sep ∉ cs) :
    splitOnChar sep cs = [cs] := by
  induction cs with
  | nil => rfl
  | cons c rest ih =>
    have hcs : c ≠ sep := fun he => h (by simp [he])
    have hrest : sep ∉ rest := fun hm => h (by simp [hm])
    simp only [splitOnChar, if_neg (fun he => hcs he), ih hrest]

/-- Splitting at the first separator occurrence. -/
theorem splitOnChar_append_sep (sep : Char) (xs ys : List Char) (h : sep ∉ xs) :
    splitOnChar sep (xs ++ sep :: ys) = xs :: splitOnChar sep ys := by
  induction xs with
  | nil => simp [splitOnChar]
  | cons c rest ih =>
    have hcs : ¬ (c = sep) := fun he => h (by simp [he])
    have hrest : sep ∉ rest := fun hm => h (by simp [hm])
    have hr := ih hrest
    show splitOnChar sep (c :: (rest ++ sep :: ys)) = (c :: rest) :: splitOnChar sep ys
    simp only [splitOnChar, if_neg hcs, hr]

/-- A list is a `isPrefixOf`-prefix of itself followed by anything. -/
theorem isPrefixOf_append_self (l r : List Char) : List.isPrefixOf l (l ++ r) = true := by
  simp [List.isPrefixOf_iff_prefix]

/-- `List.filterMap id` peels one optional head off as `Option.toList`. -/
theorem filterMap_id_cons {α : Type} (o : Option α) (l : List (Option α)) :
    List.filterMap id (o :: l) = o.toList ++ List.filterMap id l := by
  cases o <;> simp

/-- C1: evaluation of the clause construction at the failing input.  A spec
with only `gdpr_expires_from` set compiles to a bare
`{"field": "gdpr_expires_at"}` clause with neither `gte` nor `lte` (the
bound guards read `created_from`/`created_to`), and a spec with
`gdpr_expires_to` and `created_from` set crashes converting the absent
`gdpr_expires_from`; the claim requires a `gte` bound exactly when
`gdpr_expires_from` is present. -/
theorem search_candidates_gdpr_bounds_dropped :
    searchFilters
      ⟨none, none, none, none, none, some "in", none, some "in", none, none,
       some "2025-05-20T12:30:00Z", none, none, none, none, none, 100, 0⟩ =
      Except.ok [JVal.obj [("field", JVal.str "gdpr_expires_at")]] ∧
    searchFilters
      ⟨none, none, none, none, none, some "in", none, some "in", none, none,
       none, some "2025-05-20T12:30:00Z", some "2025-01-01T00:00:00Z", none,
       none, none, 100, 0⟩ =
      Except.error "Invalid ISO date string: None" := ⟨rfl, rfl⟩

/-- C2 (amended): the compiler emits at most one clause per compilation step
of section 4.2 — `searchFilters` is exactly the eleven per-step optional
clauses of `compileSteps`, in that fixed order, with the absent ones dropped —
and the spec with every optional field absent compiles to the empty list. -/
theorem search_candidates_step_structure :
    searchFilters emptySearchFilter = Except.ok [] ∧
    ∀ f : CandidateSearchFilter,
      searchFilters f = (compileSteps f).map List.reduceOption := by
  refine ⟨rfl, fun f => ?_⟩
  cases hg : gdprStep f <;> cases hc : createdStep f <;>
    simp [searchFilters, compileSteps, hg, hc, Except.map, bind, Except.bind,
      pure, Except.pure, List.reduceOption, filterMap_id_cons, List.append_assoc]

/-- C2 counterexample: a spec with both `disqualify_reasons` and
`is_disqualified` present compiles to two clauses of the `disqualifies`
family, refuting "at most one clause per filter family". -/
theorem search_candidates_double_disqualifies :
    searchFilters
      ⟨none, some ["x"], some true, none, none, some "in", none, some "in",
       none, none, none, none, none, none, none, none, 100, 0⟩ =
      Except.ok
        [JVal.obj [("filter", JVal.str "disqualifies"),
           ("reason", JVal.obj [("in", JVal.arr [JVal.str "x"])])],
         JVal.obj [("filter", JVal.str "disqualifies"),
           ("reason", JVal.obj [("has_any", JVal.bool true)])]] ∧
    countFamily "disqualifies"
        [JVal.obj [("filter", JVal.str "disqualifies"),
           ("reason", JVal.obj [("in", JVal.arr [JVal.str "x"])])],
         JVal.obj [("filter", JVal.str "disqualifies"),
           ("reason", JVal.obj [("has_any", JVal.bool true)])]] = 2 := ⟨rfl, rfl⟩

/-- C7: the `limit` validator rejects every value above 10000 with a
validation error and accepts 10000 unchanged. -/
theorem limit_validator_cap :
    (∀ v : Int, 10000 < v →
      limit_max_validator v =
        Except.error "Recruitee caps limit at 10 000 per call.") ∧
    limit_max_validator 10000 = Except.ok 10000 := by
  refine ⟨fun v hv => ?_, rfl⟩
  simp [limit_max_validator, hv]

/-- C7 witness: the validator at 10001 and 10000. -/
theorem limit_validator_cap_witness :
    limit_max_validator 10001 =
      Except.error "Recruitee caps limit at 10 000 per call." :=
  limit_validator_cap.1 10001 (by norm_num)

/-- C8: `iso_to_unix "2025-05-20T12:30:00Z"` is 1747744200 Unix seconds, and
every string the ISO grammar rejects yields the conversion error naming the
offending string instead of a value. -/
theorem iso_to_unix_roundtrip_and_errors :
    iso_to_unix "2025-05-20T12:30:00Z" = Except.ok 1747744200 ∧
    ∀ s : String, parseIsoChars (replaceZ s.data) = none →
      iso_to_unix s = Except.error ("Invalid ISO date string: " ++ s) := by
  refine ⟨rfl, fun s h => ?_⟩
  simp [iso_to_unix, h]

/-- C8 witness: a malformed input fails with the error naming it. -/
theorem iso_to_unix_roundtrip_and_errors_witness :
    iso_to_unix "not-a-date" =
      Except.error "Invalid ISO date string: not-a-date" :=
  iso_to_unix_roundtrip_and_errors.2 "not-a-date" rfl

/-- C4: from a fresh slot, two calls whose times differ by less than 900
seconds perform exactly one upstream call and return the same value, and a
call more than 900 seconds after the value was stored performs a second
upstream call. -/
theorem reference_cache_ttl_behavior {α : Type} (upstream : Nat → α)
    (t1 t2 t3 : Nat) (_h12 : t1 ≤ t2) (hwin : t2 - t1 < 900)
    (hexp : t1 + 900 < t3) :
    ((cachedFetch upstream t2 (cachedFetch upstream t1 emptyCache).2).2.upstreamCalls = 1 ∧
      (cachedFetch upstream t2 (cachedFetch upstream t1 emptyCache).2).1 =
        (cachedFetch upstream t1 emptyCache).1) ∧
    (cachedFetch upstream t3 (cachedFetch upstream t1 emptyCache).2).2.upstreamCalls = 2 := by
  have h1 : cachedFetch upstream t1 emptyCache =
      (upstream t1, ⟨some ⟨upstream t1, t1⟩, 1⟩) := rfl
  rw [h1]
  have hserve : t2 - t1 ≤ referenceCacheTTL := by
    simp only [referenceCacheTTL]; omega
  have hstale : ¬ (t3 - t1 ≤ referenceCacheTTL) := by
    simp only [referenceCacheTTL]; omega
  refine ⟨⟨?_, ?_⟩, ?_⟩ <;> simp [cachedFetch, hserve, hstale]

/-- C4 witness: concrete calls at times 0, 10 and 1000. -/
theorem reference_cache_ttl_behavior_witness :
    ((cachedFetch (fun n => n) 10 (cachedFetch (fun n => n) 0 emptyCache).2).2.upstreamCalls = 1 ∧
      (cachedFetch (fun n => n) 10 (cachedFetch (fun n => n) 0 emptyCache).2).1 =
        (cachedFetch (fun n => n) 0 emptyCache).1) ∧
    (cachedFetch (fun n => n) 1000 (cachedFetch (fun n => n) 0 emptyCache).2).2.upstreamCalls = 2 :=
  reference_cache_ttl_behavior (fun n => n) 0 10 1000 (by norm_num) (by norm_num) (by norm_num)

/-- The raw candidate object of one detail fetch:
`data.get("candidate", {})`. -/
def rawCandidate (fetch : Int → JVal) (cid : Int) : JVal :=
  jGet (fetch cid) "candidate" (JVal.obj [])

/-- The raw offer object of one detail fetch: `data.get("offer", {})`. -/
def rawOffer (fetch : Int → JVal) (oid : Int) : JVal :=
  jGet (fetch oid) "offer" (JVal.obj [])

/-- The per-candidate object built for a non-empty field list: only the
requested keys present in the raw candidate. -/
def candidateProjection (fetch : Int → JVal) (fields : List String) (cid : Int) : JVal :=
  JVal.obj (fields.filterMap (fun fld =>
    (objGet (rawCandidate fetch cid) fld).map (fun v => (fld, v))))

/-- The per-offer object built for a non-empty field list: every requested
key, with a placeholder string for absent ones. -/
def offerProjection (fetch : Int → JVal) (fields : List String) (oid : Int) : JVal :=
  JVal.obj (fields.map (fun fld =>
    (fld, (objGet (rawOffer fetch oid) fld).getD (JVal.str "Field doesn\x27t exist"))))

/-- Association-list lookup on a non-empty object. -/
theorem objGet_obj_cons (k : String) (v : JVal) (l : List (String × JVal))
    (key : String) :
    objGet (JVal.obj ((k, v) :: l)) key =
      (if k = key then some v else objGet (JVal.obj l) key) := by
  by_cases h : k = key
  · simp [objGet, List.find?_cons, h]
  · have hb : (k == key) = false := by simpa using h
    simp [objGet, List.find?_cons, hb, h]

/-- Key lookup in the candidate projection: a key resolves exactly as in the
raw candidate when requested, and to nothing otherwise. -/
theorem objGet_candidateProjection (fetch : Int → JVal) (fields : List String)
    (cid : Int) (key : String) :
    objGet (candidateProjection fetch fields cid) key =
      (if key ∈ fields then objGet (rawCandidate fetch cid) key else none) := by
  induction fields with
  | nil => simp [candidateProjection, objGet]
  | cons fld rest ih =>
    simp only [candidateProjection] at ih ⊢
    cases hv : objGet (rawCandidate fetch cid) fld with
    | none =>
      have hf : (fun fld => (objGet (rawCandidate fetch cid) fld).map
          (fun v => (fld, v))) fld = none := by simp [hv]
      rw [@List.filterMap_cons_none String (String × JVal)
        (fun fld => (objGet (rawCandidate fetch cid) fld).map (fun v => (fld, v)))
        fld rest hf]
      rw [ih]
      by_cases hk : key = fld
      · subst hk
        by_cases hm : key ∈ rest <;> simp [hm, hv]
      · simp [List.mem_cons, hk]
    | some v =>
      have hf : (fun fld => (objGet (rawCandidate fetch cid) fld).map
          (fun v2 => (fld, v2))) fld = some (fld, v) := by simp [hv]
      rw [@List.filterMap_cons_some String (String × JVal)
        (fun fld => (objGet (rawCandidate fetch cid) fld).map (fun v2 => (fld, v2)))
        fld rest (fld, v) hf]
      rw [objGet_obj_cons]
      by_cases hk : fld = key
      · subst hk
        simp [hv]
      · rw [if_neg hk, ih]
        have hk2 : ¬ key = fld := fun he => hk he.symm
        simp [List.mem_cons, hk2]

/-- Key lookup in the offer projection: every requested key is present,
absent raw keys resolving to the placeholder string. -/
theorem objGet_offerProjection (fetch : Int → JVal) (fields : List String)
    (oid : Int) (key : String) :
    objGet (offerProjection fetch fields oid) key =
      (if key ∈ fields then
        some ((objGet (rawOffer fetch oid) key).getD (JVal.str "Field doesn\x27t exist"))
      else none) := by
  induction fields with
  | nil => simp [offerProjection, objGet]
  | cons fld rest ih =>
    simp only [offerProjection] at ih ⊢
    rw [List.map_cons, objGet_obj_cons]
    by_cases hk : fld = key
    · subst hk
      simp
    · rw [if_neg hk, ih]
      have hk2 : ¬ key = fld := fun he => hk he.symm
      simp [List.mem_cons, hk2]

/-- C3 (amended): with a non-empty id list, an empty field list returns the
raw resource object per id; a non-empty field list returns, per candidate,
only the requested keys present in the raw candidate, and per offer every
requested key, absent keys resolving to the placeholder string
`"Field doesn't exist"` instead of being omitted. -/
theorem details_field_projection (fetch : Int → JVal) (ids : List Int)
    (fields : List String) (hne : ids ≠ []) :
    (get_candidates_details fetch ids [] = ids.map (rawCandidate fetch)) ∧
    (get_offers_details fetch ids [] = ids.map (fun oid => (oid, rawOffer fetch oid))) ∧
    (fields ≠ [] →
      get_candidates_details fetch ids fields =
        ids.map (candidateProjection fetch fields) ∧
      get_offers_details fetch ids fields =
        ids.map (fun oid => (oid, offerProjection fetch fields oid))) ∧
    (∀ cid key, objGet (candidateProjection fetch fields cid) key =
      (if key ∈ fields then objGet (rawCandidate fetch cid) key else none)) ∧
    (∀ oid key, objGet (offerProjection fetch fields oid) key =
      (if key ∈ fields then
        some ((objGet (rawOffer fetch oid) key).getD (JVal.str "Field doesn\x27t exist"))
      else none)) := by
  have hni : ids.isEmpty = false := by
    cases ids with
    | nil => exact absurd rfl hne
    | cons a l => rfl
  refine ⟨?_, ?_, ?_, objGet_candidateProjection fetch fields,
    objGet_offerProjection fetch fields⟩
  · simp [get_candidates_details, hni, rawCandidate]
  · simp [get_offers_details, hni, rawOffer]
  · intro hf
    have hfi : fields.isEmpty = false := by
      cases fields with
      | nil => exact absurd rfl hf
      | cons a l => rfl
    constructor
    · simp [get_candidates_details, hni, hfi, candidateProjection, rawCandidate]
    · simp [get_offers_details, hni, hfi, offerProjection, rawOffer]

/-- C3 witness: one candidate carrying only `id`, asked for `id` and a
missing key, keeps just `id`; one offer asked for the same keys returns both,
the missing one as the placeholder. -/
theorem details_field_projection_witness :
    (get_candidates_details
        (fun _ => JVal.obj [("candidate", JVal.obj [("id", JVal.num 7)])])
        [1] ["id", "missing"] =
      [JVal.obj [("id", JVal.num 7)]]) ∧
    (get_offers_details
        (fun _ => JVal.obj [("offer", JVal.obj [("id", JVal.num 7)])])
        [1] ["id", "missing"] =
      [(1, JVal.obj [("id", JVal.num 7),
         ("missing", JVal.str "Field doesn\x27t exist")])]) := by
  have h := details_field_projection
    (fun _ => JVal.obj [("candidate", JVal.obj [("id", JVal.num 7)])])
    [1] ["id", "missing"] (by simp)
  have h2 := details_field_projection
    (fun _ => JVal.obj [("offer", JVal.obj [("id", JVal.num 7)])])
    [1] ["id", "missing"] (by simp)
  refine ⟨?_, ?_⟩
  · rw [(h.2.2.1 (by simp)).1]
    rfl
  · rw [(h2.2.2.1 (by simp)).2]
    rfl

/-- C3 counterexample: an offer lacking the requested key `missing` still
yields an entry for it (bound to the placeholder string), refuting "no
entries for requested keys that are absent". -/
theorem offers_details_absent_key_entry :
    objGet (rawOffer (fun _ => JVal.obj [("offer", JVal.obj [("id", JVal.num 1)])]) 1)
        "missing" = none ∧
    get_offers_details (fun _ => JVal.obj [("offer", JVal.obj [("id", JVal.num 1)])])
        [1] ["missing"] =
      [(1, JVal.obj [("missing", JVal.str "Field doesn\x27t exist")])] := ⟨rfl, rfl⟩

/-- Splitting a header of the shape `Bearer <token> <tail>` on spaces. -/
theorem splitOnChar_bearer (s tail : List Char) (hsp : ' ' ∉ s) :
    splitOnChar ' ' ("Bearer".data ++ ' ' :: (s ++ ' ' :: tail)) =
      "Bearer".data :: s :: splitOnChar ' ' tail := by
  rw [splitOnChar_append_sep ' ' _ _ (by decide),
    splitOnChar_append_sep ' ' s tail hsp]

/-- C5 (amended): on a protected path the bearer gate returns 500 when no
token is configured, 401 "missing header" without a `Bearer `-prefixed
`authorization` header, 401 "unauthorized" when the second space-separated
token of the header differs from the configured secret, and forwards a
request whose header is exactly `Bearer <secret>` provided the secret is
non-empty and contains no space. -/
theorem bearer_gate_auth_cases (pp : List String) (expectedToken : Option String)
    (path : String) (hdr : Option String)
    (hprot : (pp.any fun p => List.isPrefixOf p.data path.data) = true) :
    (expectedToken.getD "" = "" →
      bearerDispatch pp expectedToken path hdr =
        BearerResult.serverError "Server misconfiguration - MCP_BEARER_TOKEN not set") ∧
    (expectedToken.getD "" ≠ "" → hdr = none →
      bearerDispatch pp expectedToken path hdr =
        BearerResult.unauthorized "Missing authorization header") ∧
    (∀ h2, expectedToken.getD "" ≠ "" → hdr = some h2 →
      List.isPrefixOf "Bearer ".data h2.data = false →
      bearerDispatch pp expectedToken path hdr =
        BearerResult.unauthorized "Missing authorization header") ∧
    (∀ h2, expectedToken.getD "" ≠ "" → hdr = some h2 →
      List.isPrefixOf "Bearer ".data h2.data = true →
      presentedToken h2 ≠ (expectedToken.getD "").data →
      bearerDispatch pp expectedToken path hdr =
        BearerResult.unauthorized "Unauthorized") ∧
    (∀ s, expectedToken = some s → s ≠ "" → ' ' ∉ s.data →
      hdr = some ("Bearer " ++ s) →
      bearerDispatch pp expectedToken path hdr = BearerResult.forwarded) := by
  refine ⟨fun hE => ?_, fun hE hh => ?_, fun h2 hE hh hpre => ?_,
    fun h2 hE hh hpre hne => ?_, fun s hE hsne hsp hh => ?_⟩
  · simp [bearerDispatch, hprot, hE]
  · subst hh
    simp [bearerDispatch, hprot, hE]
  · subst hh
    simp [bearerDispatch, hprot, hE, hpre]
  · subst hh
    have hne2 : ((splitOnChar ' ' h2.data)[1]?).getD [] ≠ (expectedToken.getD "").data := by
      simpa [presentedToken, List.get?_eq_getElem?] using hne
    simp [bearerDispatch, hprot, hE, hpre, hne2]
  · subst hE hh
    have hdata : ("Bearer " ++ s).data = "Bearer".data ++ ' ' :: s.data := by
      rw [String.data_append,
        show ("Bearer " : String).data = "Bearer".data ++ [' '] from rfl,
        List.append_assoc, List.singleton_append]
    have hpre2 : List.isPrefixOf "Bearer ".data ("Bearer " ++ s).data = true := by
      rw [String.data_append]
      exact isPrefixOf_append_self _ _
    simp [bearerDispatch, hprot, hsne, hpre2]
    rw [show ('B' :: 'e' :: 'a' :: 'r' :: 'e' :: 'r' :: ' ' :: s.data : List Char) =
        "Bearer".data ++ ' ' :: s.data from rfl,
      splitOnChar_append_sep ' ' _ _ (by decide),
      splitOnChar_not_mem ' ' s.data hsp]
    rfl

/-- C5 witness: a protected request presenting exactly the configured secret
is forwarded. -/
theorem bearer_gate_auth_cases_witness :
    bearerDispatch ["/mcp"] (some "s3cret") "/mcp" (some ("Bearer " ++ "s3cret")) =
      BearerResult.forwarded :=
  (bearer_gate_auth_cases ["/mcp"] (some "s3cret") "/mcp"
      (some ("Bearer " ++ "s3cret")) (by decide)).2.2.2.2 "s3cret" rfl
    (by decide) (by decide) rfl

/-- C5 counterexample: with the space-containing secret `a b` configured, the
header exactly `Bearer a b` is rejected 401 instead of being forwarded (the
gate only compares the second space-separated token, here `a`). -/
theorem bearer_gate_space_secret_rejected :
    ("Bearer a b" : String) = "Bearer " ++ "a b" ∧
    bearerDispatch ["/mcp"] (some "a b") "/mcp" (some "Bearer a b") =
      BearerResult.unauthorized "Unauthorized" ∧
    bearerDispatch ["/mcp"] (some "a b") "/mcp" (some "Bearer a b") ≠
      BearerResult.forwarded := ⟨rfl, rfl, by decide⟩

/-- C10 (amended): for a non-empty, space-free configured secret, a header
`Bearer <secret> <anything>` is forwarded (only the second space-separated
token is inspected), while a header with two spaces after `Bearer` presents
an empty second token and is rejected 401 even though the secret follows. -/
theorem bearer_gate_second_token (pp : List String) (s rest path : String)
    (hprot : (pp.any fun p => List.isPrefixOf p.data path.data) = true)
    (hsne : s ≠ "") (hsp : ' ' ∉ s.data) :
    bearerDispatch pp (some s) path (some ("Bearer " ++ s ++ " " ++ rest)) =
      BearerResult.forwarded ∧
    bearerDispatch pp (some s) path (some ("Bearer  " ++ s)) =
      BearerResult.unauthorized "Unauthorized" := by
  constructor
  · have hdata : ("Bearer " ++ s ++ " " ++ rest).data =
        "Bearer".data ++ ' ' :: (s.data ++ ' ' :: rest.data) := by
      rw [String.data_append, String.data_append, String.data_append,
        show ("Bearer " : String).data = "Bearer".data ++ [' '] from rfl,
        show (" " : String).data = [' '] from rfl]
      simp [List.append_assoc]
    have hpre2 : List.isPrefixOf "Bearer ".data
        ("Bearer " ++ s ++ " " ++ rest).data = true := by
      rw [hdata, show ("Bearer " : String).data = "Bearer".data ++ [' '] from rfl]
      rw [show "Bearer".data ++ ' ' :: (s.data ++ ' ' :: rest.data) =
        ("Bearer".data ++ [' ']) ++ (s.data ++ ' ' :: rest.data) by
          simp [List.append_assoc]]
      exact isPrefixOf_append_self _ _
    simp [bearerDispatch, hprot, hsne, hpre2]
    rw [show ('B' :: 'e' :: 'a' :: 'r' :: 'e' :: 'r' :: ' ' ::
          (s.data ++ ' ' :: rest.data) : List Char) =
        "Bearer".data ++ ' ' :: (s.data ++ ' ' :: rest.data) from rfl,
      splitOnChar_bearer s.data rest.data hsp]
    simp
  · have hdata : ("Bearer  " ++ s).data = "Bearer".data ++ ' ' :: ' ' :: s.data := by
      rw [String.data_append,
        show ("Bearer  " : String).data = "Bearer".data ++ [' ', ' '] from rfl]
      simp [List.append_assoc]
    have hpre2 : List.isPrefixOf "Bearer ".data ("Bearer  " ++ s).data = true := by
      rw [String.data_append,
        show ("Bearer  " : String).data = "Bearer ".data ++ [' '] from rfl,
        List.append_assoc]
      exact isPrefixOf_append_self _ _
    have hsdne : s.data ≠ [] := by
      intro hcon
      apply hsne
      cases s with
      | mk l =>
        have hl : l = [] := hcon
        subst hl
        rfl
    simp [bearerDispatch, hprot, hsne, hpre2]
    rw [show ('B' :: 'e' :: 'a' :: 'r' :: 'e' :: 'r' :: ' ' :: ' ' ::
          s.data : List Char) =
        "Bearer".data ++ ' ' :: ([] ++ ' ' :: s.data) from rfl,
      splitOnChar_append_sep ' ' _ _ (by decide),
      splitOnChar_append_sep ' ' [] s.data (by simp)]
    intro hcon
    apply hsdne
    simpa using hcon.symm

/-- C10 witness: `Bearer s3cret junk` is forwarded, `Bearer  s3cret` (two
spaces, empty second token) is rejected. -/
theorem bearer_gate_second_token_witness :
    bearerDispatch ["/mcp"] (some "s3cret") "/mcp"
        (some ("Bearer " ++ "s3cret" ++ " " ++ "junk")) =
      BearerResult.forwarded ∧
    bearerDispatch ["/mcp"] (some "s3cret") "/mcp"
        (some ("Bearer  " ++ "s3cret")) =
      BearerResult.unauthorized "Unauthorized" :=
  bearer_gate_second_token ["/mcp"] "s3cret" "junk" "/mcp" (by decide)
    (by decide) (by decide)

/-- C10 counterexample: with the space-containing secret `a b`, the header
`Bearer a b x` — the secret followed by a space and further text — is
rejected 401 instead of forwarded. -/
theorem bearer_gate_second_token_space_secret :
    ("Bearer a b x" : String) = "Bearer " ++ "a b" ++ " " ++ "x" ∧
    bearerDispatch ["/mcp"] (some "a b") "/mcp" (some "Bearer a b x") =
      BearerResult.unauthorized "Unauthorized" ∧
    bearerDispatch ["/mcp"] (some "a b") "/mcp" (some "Bearer a b x") ≠
      BearerResult.forwarded := ⟨rfl, rfl, by decide⟩

/-- A request that reaches the login gate's POST branch: protected path, POST
method, and no cookie equal to the configured session secret. -/
def protPostNoCookie (pp : List String) (secret : String) (r : LoginRequest) : Prop :=
  (pp.any fun q => List.isPrefixOf q.data r.path.data) = true ∧
  r.method = "POST" ∧ ∀ t, r.cookieAuthToken = some t → ¬ t = secret

/-- The cookie check of the login gate fails for such a request. -/
theorem cookie_check_false (secret : String) (r : LoginRequest)
    (hc : ∀ t, r.cookieAuthToken = some t → ¬ t = secret) :
    (match r.cookieAuthToken with
     | some t => t == secret
     | none => false) = false := by
  cases hct : r.cookieAuthToken with
  | none => rfl
  | some t => simpa using hc t hct

/-- An unthrottled POST through the login gate always counts one rate-limiter
hit, whatever the submitted credentials. -/
theorem loginDispatch_post_state (cfg : LoginConfig) (pp : List String)
    (req : LoginRequest) (now : Nat) (rl : Option RateState)
    (secret uname pw : String)
    (hcfg : cfg = ⟨some secret, some uname, some pw⟩)
    (hs : secret ≠ "") (hu : uname ≠ "") (hp : pw ≠ "")
    (hq : protPostNoCookie pp secret req)
    (hrate : rateTest now rl = true) :
    (loginDispatch cfg pp req now rl).2 = rateHit now rl := by
  obtain ⟨hprot, hmethod, hcookie⟩ := hq
  subst hcfg
  simp only [loginDispatch, hprot, cookie_check_false secret req hcookie,
    hmethod, hrate, Option.getD_some, Bool.not_true, Bool.false_eq_true,
    if_false, if_neg hs, Bool.not_false, if_true]
  rw [if_neg (by simp [hu, hp])]
  rcases h1 : validate_username (sanitize_string req.formUsername 50) with ⟨b1, e1⟩
  cases b1
  · simp [h1]
  · rcases h2 : validate_password (sanitize_string req.formPassword 128) with ⟨b2, e2⟩
    cases b2
    · simp [h1, h2]
    · simp only [h1, h2]
      split <;> rfl

/-- A throttled POST through the login gate is answered with the rate-limit
error form and leaves the limiter state unchanged. -/
theorem loginDispatch_post_throttled (cfg : LoginConfig) (pp : List String)
    (req : LoginRequest) (now : Nat) (rl : Option RateState)
    (secret uname pw : String)
    (hcfg : cfg = ⟨some secret, some uname, some pw⟩)
    (hs : secret ≠ "") (hu : uname ≠ "") (hp : pw ≠ "")
    (hq : protPostNoCookie pp secret req)
    (hrate : rateTest now rl = false) :
    loginDispatch cfg pp req now rl =
      (LoginResult.loginForm
        (some "Too many login attempts. Please try again later."), rl) := by
  obtain ⟨hprot, hmethod, hcookie⟩ := hq
  subst hcfg
  simp only [loginDispatch, hprot, cookie_check_false secret req hcookie,
    hmethod, hrate, Option.getD_some, Bool.not_true, Bool.false_eq_true,
    if_false, if_neg hs, Bool.not_false, if_true]
  rw [if_neg (by simp [hu, hp])]

/-- C6 (amended): with valid configuration, (a) the 4th POST from one address
within one 60-second window is answered with the rate-limit login form,
whatever credentials it carries; (b) an unthrottled POST whose sanitized
username equals the configured username and passes validation, and whose raw
password equals the configured password with its sanitized form passing
validation, is answered with a 302 redirect to the original URL that sets
the 7-day `auth_token` session cookie. -/
theorem login_gate_rate_limit_and_redirect (cfg : LoginConfig)
    (pp : List String) (secret uname pw : String)
    (hcfg : cfg = ⟨some secret, some uname, some pw⟩)
    (hs : secret ≠ "") (hu : uname ≠ "") (hp : pw ≠ "") :
    (∀ (r1 r2 r3 r4 : LoginRequest) (t1 t2 t3 t4 : Nat),
      protPostNoCookie pp secret r1 → protPostNoCookie pp secret r2 →
      protPostNoCookie pp secret r3 → protPostNoCookie pp secret r4 →
      t1 ≤ t2 → t2 ≤ t3 → t3 ≤ t4 → t4 < t1 + 60 →
      (loginDispatch cfg pp r4 t4
        (loginDispatch cfg pp r3 t3
          (loginDispatch cfg pp r2 t2
            (loginDispatch cfg pp r1 t1 none).2).2).2).1 =
        LoginResult.loginForm
          (some "Too many login attempts. Please try again later.")) ∧
    (∀ (r : LoginRequest) (now : Nat) (rl : Option RateState),
      protPostNoCookie pp secret r →
      rateTest now rl = true →
      validate_username (sanitize_string r.formUsername 50) = (true, "") →
      sanitize_string r.formUsername 50 = uname →
      validate_password (sanitize_string r.formPassword 128) = (true, "") →
      r.formPassword = some pw →
      loginDispatch cfg pp r now rl =
        (LoginResult.redirect r.url secret 604800 true (r.scheme == "https")
          "strict" "/documents", rateHit now rl)) := by
  constructor
  · intro r1 r2 r3 r4 t1 t2 t3 t4 hq1 hq2 hq3 hq4 h12 h23 h34 hwin
    have e1 : (loginDispatch cfg pp r1 t1 none).2 = some ⟨t1, 1⟩ :=
      loginDispatch_post_state cfg pp r1 t1 none secret uname pw hcfg
        hs hu hp hq1 rfl
    have hr2 : rateTest t2 (some ⟨t1, 1⟩) = true := by
      show (if t1 + 60 ≤ t2 then true else decide (1 < 3)) = true
      split <;> rfl
    have e2 : (loginDispatch cfg pp r2 t2 (some ⟨t1, 1⟩)).2 = some ⟨t1, 2⟩ := by
      rw [loginDispatch_post_state cfg pp r2 t2 (some ⟨t1, 1⟩) secret uname pw
        hcfg hs hu hp hq2 hr2]
      show (if t1 + 60 ≤ t2 then some (RateState.mk t2 1)
          else some (RateState.mk t1 (1 + 1))) = some (RateState.mk t1 2)
      rw [if_neg (show ¬ t1 + 60 ≤ t2 by omega)]
    have hr3 : rateTest t3 (some ⟨t1, 2⟩) = true := by
      show (if t1 + 60 ≤ t3 then true else decide (2 < 3)) = true
      split <;> rfl
    have e3 : (loginDispatch cfg pp r3 t3 (some ⟨t1, 2⟩)).2 = some ⟨t1, 3⟩ := by
      rw [loginDispatch_post_state cfg pp r3 t3 (some ⟨t1, 2⟩) secret uname pw
        hcfg hs hu hp hq3 hr3]
      show (if t1 + 60 ≤ t3 then some (RateState.mk t3 1)
          else some (RateState.mk t1 (2 + 1))) = some (RateState.mk t1 3)
      rw [if_neg (show ¬ t1 + 60 ≤ t3 by omega)]
    have hr4 : rateTest t4 (some ⟨t1, 3⟩) = false := by
      show (if t1 + 60 ≤ t4 then true else decide (3 < 3)) = false
      rw [if_neg (show ¬ t1 + 60 ≤ t4 by omega)]
      rfl
    rw [e1, e2, e3,
      loginDispatch_post_throttled cfg pp r4 t4 (some ⟨t1, 3⟩) secret uname pw
        hcfg hs hu hp hq4 hr4]
  · intro r now rl hq hrate hval hueq hpval hpeq
    obtain ⟨hprot, hmethod, hcookie⟩ := hq
    subst hcfg
    simp only [loginDispatch, hprot, cookie_check_false secret r hcookie,
      hmethod, hrate, Option.getD_some, Bool.not_true, Bool.false_eq_true,
      if_false, if_neg hs, Bool.not_false, if_true]
    rw [if_neg (by simp [hu, hp])]
    simp only [hval, hpval]
    rw [if_pos ⟨hueq, by rw [hpeq]⟩]

/-- C6 witness: concrete configuration and requests — the 4th submission at
times 0,1,2,3 is throttled, and a correct unthrottled submission redirects
with the cookie. -/
theorem login_gate_rate_limit_and_redirect_witness :
    ((loginDispatch ⟨some "tok", some "admin", some "pw"⟩ ["/documents"]
        ⟨"/documents", "POST", "http", "http://h/documents", none,
          some "admin", some "pw"⟩ 3
      (loginDispatch ⟨some "tok", some "admin", some "pw"⟩ ["/documents"]
          ⟨"/documents", "POST", "http", "http://h/documents", none,
            some "admin", some "pw"⟩ 2
        (loginDispatch ⟨some "tok", some "admin", some "pw"⟩ ["/documents"]
            ⟨"/documents", "POST", "http", "http://h/documents", none,
              some "admin", some "pw"⟩ 1
          (loginDispatch ⟨some "tok", some "admin", some "pw"⟩ ["/documents"]
              ⟨"/documents", "POST", "http", "http://h/documents", none,
                some "admin", some "pw"⟩ 0 none).2).2).2).1 =
      LoginResult.loginForm
        (some "Too many login attempts. Please try again later.")) ∧
    loginDispatch ⟨some "tok", some "admin", some "pw"⟩ ["/documents"]
        ⟨"/documents", "POST", "http", "http://h/documents", none,
          some "admin", some "pw"⟩ 50 none =
      (LoginResult.redirect "http://h/documents" "tok" 604800 true
        (("http" : String) == "https") "strict" "/documents",
       rateHit 50 none) := by
  have hbase := login_gate_rate_limit_and_redirect
    ⟨some "tok", some "admin", some "pw"⟩ ["/documents"] "tok" "admin" "pw"
    rfl (by decide) (by decide) (by decide)
  have hq : protPostNoCookie ["/documents"] "tok"
      ⟨"/documents", "POST", "http", "http://h/documents", none,
        some "admin", some "pw"⟩ :=
    ⟨by decide, rfl, fun t ht => by cases ht⟩
  exact ⟨hbase.1 _ _ _ _ 0 1 2 3 hq hq hq hq (by decide) (by decide)
      (by decide) (by decide),
    hbase.2 _ 50 none hq rfl (by decide) (by decide) (by decide) rfl⟩

/-- C6 counterexample: with configured credentials `ab` / `pw` (username
shorter than the validator's 3-character minimum), an unthrottled submission
of exactly those credentials is answered with a validation-error login form,
not the claimed 302 redirect. -/
theorem login_gate_short_username_rejected :
    rateTest 0 none = true ∧
    (loginDispatch ⟨some "tok", some "ab", some "pw"⟩ ["/documents"]
        ⟨"/documents", "POST", "http", "http://h/documents", none,
          some "ab", some "pw"⟩ 0 none).1 =
      LoginResult.loginForm (some "Invalid input: Username too short") ∧
    ∀ (url cv : String) (ma : Nat) (ho se : Bool) (ss cp : String),
      (loginDispatch ⟨some "tok", some "ab", some "pw"⟩ ["/documents"]
          ⟨"/documents", "POST", "http", "http://h/documents", none,
            some "ab", some "pw"⟩ 0 none).1 ≠
        LoginResult.redirect url cv ma ho se ss cp := by
  refine ⟨rfl, rfl, ?_⟩
  intro url cv ma ho se ss cp hcon
  rw [show (loginDispatch ⟨some "tok", some "ab", some "pw"⟩ ["/documents"]
      ⟨"/documents", "POST", "http", "http://h/documents", none,
        some "ab", some "pw"⟩ 0 none).1 =
    LoginResult.loginForm (some "Invalid input: Username too short") from rfl]
    at hcon
  cases hcon

/-- C9: a raw password equal to the configured password, of length at most
128 but whose HTML-escaped (post-strip) form exceeds 128 characters, is
wiped to `""` by the sanitizer; password validation of `""` fails with
"Password is required", and the gate answers with a login form error — never
the session-cookie redirect — despite the raw password matching. -/
theorem escaped_password_overflow_rejected (cfg : LoginConfig)
    (pp : List String) (req : LoginRequest) (now : Nat) (rl : Option RateState)
    (secret uname pw p : String)
    (hcfg : cfg = ⟨some secret, some uname, some pw⟩)
    (hs : secret ≠ "") (hu : uname ≠ "") (hp : pw ≠ "")
    (hq : protPostNoCookie pp secret req)
    (hrate : rateTest now rl = true)
    (hform : req.formPassword = some p)
    (_hmatch : p = pw)
    (_hlen : p.length ≤ 128)
    (hesc : 128 < (escapeHtml (pyStrip p.data)).length) :
    sanitize_string (some p) 128 = "" ∧
    validate_password "" = (false, "Password is required") ∧
    ∃ err, (loginDispatch cfg pp req now rl).1 =
      LoginResult.loginForm (some err) := by
  have hpne : ¬ p = "" := by
    intro he
    rw [he] at hesc
    exact absurd hesc (by decide)
  have hsan : sanitize_string (some p) 128 = "" := by
    show (if p = "" then ""
      else if (escapeHtml (pyStrip p.data)).length > 128 then ""
      else String.mk (escapeHtml (pyStrip p.data))) = ""
    rw [if_neg hpne, if_pos hesc]
  refine ⟨hsan, rfl, ?_⟩
  obtain ⟨hprot, hmethod, hcookie⟩ := hq
  subst hcfg
  simp only [loginDispatch, hprot, cookie_check_false secret req hcookie,
    hmethod, hrate, Option.getD_some, Bool.not_true, Bool.false_eq_true,
    if_false, if_neg hs, Bool.not_false, if_true]
  rw [if_neg (by simp [hu, hp])]
  rcases h1 : validate_username (sanitize_string req.formUsername 50) with ⟨b1, e1⟩
  cases b1
  · exact ⟨"Invalid input: " ++ e1, by simp [h1]⟩
  · have hv2 : validate_password (sanitize_string req.formPassword 128) =
        (false, "Password is required") := by
      rw [hform, hsan]
      rfl
    exact ⟨"Invalid input: " ++ "Password is required", by simp [h1, hv2]⟩

set_option maxRecDepth 4000 in
/-- C9 witness: a 26-ampersand configured password (26 characters, escaping
to 130) submitted verbatim is rejected with a form error. -/
theorem escaped_password_overflow_rejected_witness :
    sanitize_string (some "&&&&&&&&&&&&&&&&&&&&&&&&&&") 128 = "" ∧
    validate_password "" = (false, "Password is required") ∧
    ∃ err, (loginDispatch
        ⟨some "tok", some "admin", some "&&&&&&&&&&&&&&&&&&&&&&&&&&"⟩
        ["/documents"]
        ⟨"/documents", "POST", "http", "http://h/documents", none,
          some "admin", some "&&&&&&&&&&&&&&&&&&&&&&&&&&"⟩ 0 none).1 =
      LoginResult.loginForm (some err) :=
  escaped_password_overflow_rejected
    ⟨some "tok", some "admin", some "&&&&&&&&&&&&&&&&&&&&&&&&&&"⟩
    ["/documents"]
    ⟨"/documents", "POST", "http", "http://h/documents", none,
      some "admin", some "&&&&&&&&&&&&&&&&&&&&&&&&&&"⟩ 0 none
    "tok" "admin" "&&&&&&&&&&&&&&&&&&&&&&&&&&" "&&&&&&&&&&&&&&&&&&&&&&&&&&"
    rfl (by decide) (by decide) (by decide)
    ⟨by decide, rfl, fun t ht => by cases ht⟩
    rfl rfl rfl (by decide) (by decide)
